import Mathlib

/-!
Verification of the request/response framework in
`src/cloudflare/src/framework/mod.rs`.

Modelling conventions:
- Rust functions that can panic are embedded as `Option`-valued functions,
  where `none` marks the panic (process abort).
- Fallible Rust functions returning `Result` are embedded as `Except`.
- External I/O (the reqwest transport) is represented by explicit function
  parameters (`send`, `canBuild`) quantified in the theorems, so the
  statements hold for every behavior of the external transport.
- Modules of the repository that are outside the fragment under study
  (`auth`, `endpoint`, `response`, `reqwest_adaptors`) are modelled from the
  specification text; each such definition is marked `Modelled from the spec`.
-/

namespace Cloudflare

/-- `std::time::Duration`: seconds plus nanoseconds. -/
structure Duration where
  secs : Nat
  nanos : Nat
deriving DecidableEq, Repr

/-- `Duration::from_secs`. -/
def Duration.from_secs (s : Nat) : Duration := ⟨s, 0⟩

/-- A parsed absolute URL as the `url` crate produces for the addresses this
client uses: a scheme, a host, and a path. -/
structure Url where
  scheme : String
  host : String
  path : String
deriving DecidableEq, Repr

/-- Split a character stream at the first "://", returning the scheme part
before it and the remainder after it; `none` when no "://" occurs. -/
def splitScheme : List Char → Option (List Char × List Char)
  | [] => none
  | ':' :: '/' :: '/' :: rest => some ([], rest)
  | c :: cs =>
    match splitScheme cs with
    | some (sch, rest) => some (c :: sch, rest)
    | none => none

/-- Split the part after "://" into the host (up to the first slash) and the
path (from the first slash on, empty when there is none). -/
def splitHostPath : List Char → List Char × List Char
  | [] => ([], [])
  | '/' :: rest => ([], '/' :: rest)
  | c :: cs =>
    let p := splitHostPath cs
    (c :: p.1, p.2)

/-- `url::Url::parse`, restricted to what the addresses in this crate need:
an alphabetic scheme, "://", a nonempty host, and a path. Returns `none`
exactly when the string is not a well-formed absolute URL of this shape. -/
def urlParse (s : String) : Option Url :=
  match splitScheme s.data with
  | none => none
  | some (sch, rest) =>
    if sch ≠ [] ∧ sch.all Char.isAlpha then
      let hp := splitHostPath rest
      if hp.1 ≠ [] then
        some ⟨String.mk sch, String.mk hp.1, String.mk hp.2⟩
      else none
    else none

/-- `Environment` from `framework/mod.rs` lines 41-45. -/
inductive Environment where
  | Production
  | Custom (url : Url)
deriving DecidableEq, Repr

/-- The constant string parsed at `framework/mod.rs` line 51. -/
def productionUrlStr : String := "https://api.cloudflare.com/client/v4/"

/-- `impl From<&Environment> for url::Url` (`framework/mod.rs` lines 47-56).
The source unwraps the parse for `Production`; `none` models that unwrap
panicking. `Custom` clones the caller-supplied URL. -/
def urlFromEnvironment : Environment → Option Url
  | Environment.Production => urlParse productionUrlStr
  | Environment.Custom url => some url

/-- Modelled from the spec: `auth::Credentials` (§4.2), a closed set of
authentication schemes — key+email pair, bearer token, service key, or none.
The module `framework/auth.rs` is outside the fragment under study. -/
inductive Credentials where
  | UserAuthKey (email : String) (key : String)
  | UserAuthToken (token : String)
  | UserServiceKey (key : String)
  | NoAuth
deriving DecidableEq, Repr

/-- HTTP verbs, as the endpoint contract exposes them. -/
inductive Method where
  | GET
  | POST
  | PUT
  | DELETE
  | PATCH
deriving DecidableEq, Repr

/-- Modelled from the spec: `reqwest_adaptors::match_reqwest_method`
(`framework/mod.rs` line 107 calls it), a one-to-one translation of HTTP
verbs into the transport's verb type; with a single verb type it is the
identity. -/
def match_reqwest_method (m : Method) : Method := m

/-- Modelled from the spec: the `endpoint::Endpoint` trait (§4.3) — an API
operation described by a verb, an address derived from the environment, an
optional query, an optional body, and a content type. The module
`framework/endpoint.rs` is outside the fragment under study; trait methods
become structure fields. -/
structure Endpoint (ResultType QueryType BodyType : Type) where
  method : Method
  url : Environment → Url
  query : Option QueryType
  body : Option BodyType
  content_type : String

/-- `serde_json::to_string` over a `Serialize` bound: serialization of a
value to a JSON string, which can fail. -/
class Serialize (α : Type) where
  to_string : α → Except String String

/-- `reqwest::blocking::Client`: the transport handle; its observable
configuration here is the timeout it was built with. -/
structure ReqwestClient where
  timeout : Duration
deriving DecidableEq, Repr

/-- The header name `reqwest::header::CONTENT_TYPE`. -/
def CONTENT_TYPE : String := "content-type"

/-- The wire request accumulated by `reqwest::blocking::RequestBuilder`:
verb, address, the client's timeout that will govern the call, the query
value, the serialized body, the headers set so far, and the credentials the
request was decorated with. -/
structure Request (QueryType : Type) where
  method : Method
  url : Url
  timeout : Duration
  query : Option QueryType
  body : Option String
  headers : List (String × String)
  auth : Option Credentials

/-- `HttpApiClientConfig` (`framework/mod.rs` lines 65-67). -/
structure HttpApiClientConfig where
  http_timeout : Duration

/-- `impl Default for HttpApiClientConfig` (`framework/mod.rs` lines 69-75). -/
def HttpApiClientConfig.default : HttpApiClientConfig :=
  { http_timeout := Duration.from_secs 30 }

/-- `HttpApiClient` (`framework/mod.rs` lines 59-63). -/
structure HttpApiClient where
  environment : Environment
  credentials : Credentials
  http_client : ReqwestClient

/-- `reqwest::blocking::Client::builder().timeout(d).build()`: the external
transport builder. Whether building fails is the transport's choice, given
here by `canBuild` (returning `some err` for a configuration it rejects); on
success the built client carries the configured timeout. -/
def buildClient (canBuild : Duration → Option String) (d : Duration) :
    Except String ReqwestClient :=
  match canBuild d with
  | some e => Except.error e
  | none => Except.ok ⟨d⟩

/-- `HttpApiClient::new` (`framework/mod.rs` lines 77-92): builds the
transport with the configured timeout, propagating a build failure with `?`,
then stores environment, credentials and the transport. -/
def HttpApiClient.new (canBuild : Duration → Option String)
    (credentials : Credentials) (config : HttpApiClientConfig)
    (environment : Environment) : Except String HttpApiClient := do
  let http_client ← buildClient canBuild config.http_timeout
  pure { environment, credentials, http_client }

/-- `HttpApiClient::make_request` (`framework/mod.rs` lines 94-120): builds
the wire request from the endpoint — verb, address, query — then, when a
body is present, serializes it (the source unwraps the serialization
result: `none` models that unwrap aborting the process) and sets the
content-type header; finally decorates the request with the client's
credentials. -/
def HttpApiClient.make_request {ResultType QueryType BodyType : Type}
    [Serialize BodyType] (self : HttpApiClient)
    (endpoint : Endpoint ResultType QueryType BodyType) :
    Option (Request QueryType) := do
  let request : Request QueryType :=
    { method := match_reqwest_method endpoint.method
      url := endpoint.url self.environment
      timeout := self.http_client.timeout
      query := endpoint.query
      body := none
      headers := []
      auth := none }
  let request ←
    match endpoint.body with
    | some body =>
      match Serialize.to_string body with
      | Except.ok s =>
        some { request with
                body := some s
                headers := request.headers ++ [(CONTENT_TYPE, endpoint.content_type)] }
      | Except.error _ => none
    | none => some request
  let request := { request with auth := some self.credentials }
  pure request

/-- A completed HTTP response: status code and raw body bytes. -/
structure HttpResponse where
  status : Nat
  body : List Nat

/-- Modelled from the spec: one `{code, message}` error entry of the service
envelope (§6). The module `framework/response.rs` is outside the fragment
under study. -/
structure ApiError where
  code : Nat
  message : String
deriving DecidableEq, Repr

/-- Modelled from the spec: the service's standard envelope (§4.5 step 2,
§6) — boolean `success`, optional `result`, optional `result_info`,
`messages`, and an `errors` array. -/
structure Envelope (ResultType : Type) where
  success : Bool
  result : Option ResultType
  result_info : Option String
  messages : List String
  errors : List ApiError

/-- Modelled from the spec: a typed success value plus accompanying
metadata (§3 API Response). -/
structure ApiSuccess (ResultType : Type) where
  result : Option ResultType
  result_info : Option String

/-- Modelled from the spec: the failure taxonomy (§3 API Failure, §7) —
transport failure, service-reported failure with the service's error
entries, or a shape failure retaining the status and raw body. -/
inductive ApiFailure where
  | Transport (error : String)
  | Service (status : Nat) (errors : List ApiError)
  | Shape (status : Nat) (body : List Nat)
deriving DecidableEq, Repr

/-- Whether an HTTP status code itself signals an error (§4.5 step 4). -/
def statusIsError (status : Nat) : Bool := 400 ≤ status

/-- Modelled from the spec: `response::map_api_response` (§4.5 steps 2-5).
`parse` is the envelope deserializer for the expected result shape; a body
it cannot parse yields a shape failure, an envelope with `success = false`
or an error status yields a service failure carrying the `errors` list
verbatim, and otherwise the result and metadata are returned as success. -/
def map_api_response {ResultType : Type}
    (parse : List Nat → Option (Envelope ResultType)) (resp : HttpResponse) :
    Except ApiFailure (ApiSuccess ResultType) :=
  match parse resp.body with
  | none => Except.error (ApiFailure.Shape resp.status resp.body)
  | some env =>
    if env.success = true ∧ statusIsError resp.status = false then
      Except.ok ⟨env.result, env.result_info⟩
    else
      Except.error (ApiFailure.Service resp.status env.errors)

/-- `ApiClient::request` for `HttpApiClient` (`framework/mod.rs` lines
127-139): builds the request with `make_request` (outer `none` models the
panic thereof), sends it — `send` is the external transport, failing with a
transport error — and on a transport failure the `?` propagates it as an
`ApiFailure`; a received response goes through `map_api_response`. -/
def HttpApiClient.request {ResultType QueryType BodyType : Type}
    [Serialize BodyType]
    (send : Request QueryType → Except String HttpResponse)
    (parse : List Nat → Option (Envelope ResultType))
    (self : HttpApiClient)
    (endpoint : Endpoint ResultType QueryType BodyType) :
    Option (Except ApiFailure (ApiSuccess ResultType)) := do
  let req ← self.make_request endpoint
  match send req with
  | Except.error e => pure (Except.error (ApiFailure.Transport e))
  | Except.ok response => pure (map_api_response parse response)

/-- `ApiClient::request_raw_bytes` for `HttpApiClient` (`framework/mod.rs`
lines 142-155): same `make_request`, then sends and copies the entire
response body into a buffer, returned verbatim with no interpretation. -/
def HttpApiClient.request_raw_bytes {ResultType QueryType BodyType : Type}
    [Serialize BodyType]
    (send : Request QueryType → Except String HttpResponse)
    (self : HttpApiClient)
    (endpoint : Endpoint ResultType QueryType BodyType) :
    Option (Except String (List Nat)) := do
  let req ← self.make_request endpoint
  match send req with
  | Except.error e => pure (Except.error e)
  | Except.ok response => pure (Except.ok response.body)

/-- A JSON-serializable body type for concrete instances: a number always
serializes successfully. -/
instance : Serialize Nat :=
  ⟨fun n => Except.ok (Nat.repr n)⟩

/-- A body whose serde serialization fails, as a map with non-string keys
does under `serde_json::to_string`. -/
structure BadBody where
  tag : Nat
deriving DecidableEq, Repr

instance : Serialize BadBody :=
  ⟨fun _ => Except.error "key must be a string"⟩

/-- A concrete resolved address for example endpoints. -/
def exampleUrl : Url := ⟨"https", "api.cloudflare.com", "/client/v4/zones"⟩

/-- A concrete client: production environment, a token credential, and a
transport built with the default 30-second timeout. -/
def exClient : HttpApiClient :=
  ⟨Environment.Production, Credentials.UserAuthToken "t", ⟨Duration.from_secs 30⟩⟩

/-- A concrete endpoint carrying a serializable body. -/
def epWithBody : Endpoint Unit Unit Nat :=
  ⟨Method.POST, fun _ => exampleUrl, none, some 5, "application/json"⟩

/-- A concrete endpoint whose body serialization fails. -/
def epBad : Endpoint Unit Unit BadBody :=
  ⟨Method.POST, fun _ => exampleUrl, none, some ⟨0⟩, "application/json"⟩

/-- The wire request `make_request` builds for `exClient` and `epWithBody`. -/
def exRequest : Request Unit :=
  { method := Method.POST
    url := exampleUrl
    timeout := Duration.from_secs 30
    query := none
    body := some "5"
    headers := [(CONTENT_TYPE, "application/json")]
    auth := some (Credentials.UserAuthToken "t") }

/-- An envelope deserializer that fails on every body, as serde does on a
body that is not JSON at all. -/
def parseNone : List Nat → Option (Envelope Unit) := fun _ => none

/-- A completed response with HTTP 200 and the non-JSON body "not". -/
def nonJsonResp : HttpResponse := ⟨200, [110, 111, 116]⟩

/-- A transport that fails every send with a timeout error. -/
def sendTimeout : Request Unit → Except String HttpResponse :=
  fun _ => Except.error "operation timed out"

/-- A transport that answers every send with HTTP 200 and body bytes
`[1, 2, 3]`. -/
def sendOkBytes : Request Unit → Except String HttpResponse :=
  fun _ => Except.ok ⟨200, [1, 2, 3]⟩

/-- A transport builder that rejects every configuration. -/
def canBuildFail : Duration → Option String := fun _ => some "invalid timeout"

/-- A transport builder that accepts every configuration. -/
def canBuildOk : Duration → Option String := fun _ => none

/-- Helper: inverting a successful `HttpApiClient::new` — the client is
exactly the record of the given environment, credentials, and a transport
built with the configured timeout. -/
theorem new_ok_inv (canBuild : Duration → Option String) (cred : Credentials)
    (cfg : HttpApiClientConfig) (env : Environment) (client : HttpApiClient)
    (h : HttpApiClient.new canBuild cred cfg env = Except.ok client) :
    client = ⟨env, cred, ⟨cfg.http_timeout⟩⟩ := by
  unfold HttpApiClient.new buildClient at h
  cases hc : canBuild cfg.http_timeout with
  | some e => rw [hc] at h; simp at h
  | none => rw [hc] at h; simp at h; exact h.symm

/-- Helper: the request `make_request` builds when the endpoint has no
body — no body string, no headers, decorated with the client's
credentials. -/
theorem make_request_eq_of_body_none {R Q B : Type} [Serialize B]
    (self : HttpApiClient) (ep : Endpoint R Q B)
    (hb : ep.body = none) :
    self.make_request ep = some ⟨match_reqwest_method ep.method,
      ep.url self.environment, self.http_client.timeout, ep.query, none, [],
      some self.credentials⟩ := by
  unfold HttpApiClient.make_request
  rw [hb]
  rfl

/-- Helper: the request `make_request` builds when the endpoint has a body
whose serialization succeeds — the serialized body, the content-type
header, and the client's credentials. -/
theorem make_request_eq_of_body_ok {R Q B : Type} [Serialize B]
    (self : HttpApiClient) (ep : Endpoint R Q B) (body : B) (s : String)
    (hb : ep.body = some body) (hs : Serialize.to_string body = Except.ok s) :
    self.make_request ep = some ⟨match_reqwest_method ep.method,
      ep.url self.environment, self.http_client.timeout, ep.query, some s,
      [(CONTENT_TYPE, ep.content_type)], some self.credentials⟩ := by
  unfold HttpApiClient.make_request
  rw [hb]
  simp only [hs]
  rfl

/-- Helper: when the endpoint has a body whose serialization fails, the
source unwrap aborts the process, modelled as `none`. -/
theorem make_request_eq_of_body_error {R Q B : Type} [Serialize B]
    (self : HttpApiClient) (ep : Endpoint R Q B) (body : B) (e : String)
    (hb : ep.body = some body) (hs : Serialize.to_string body = Except.error e) :
    self.make_request ep = none := by
  unfold HttpApiClient.make_request
  rw [hb]
  simp only [hs]
  rfl

/-- Helper: every request built by `make_request` is decorated with the
client's own credentials. -/
theorem make_request_auth_eq {R Q B : Type} [Serialize B]
    (self : HttpApiClient) (ep : Endpoint R Q B) (req : Request Q)
    (h : self.make_request ep = some req) :
    req.auth = some self.credentials := by
  cases hb : ep.body with
  | none =>
    rw [make_request_eq_of_body_none self ep hb] at h
    injection h with h2
    rw [← h2]
  | some body =>
    cases hs : Serialize.to_string body with
    | ok s =>
      rw [make_request_eq_of_body_ok self ep body s hb hs] at h
      injection h with h2
      rw [← h2]
    | error e =>
      rw [make_request_eq_of_body_error self ep body e hb hs] at h
      simp at h

/-- Helper: every request built by `make_request` carries the timeout of
the client's transport handle. -/
theorem make_request_timeout_eq {R Q B : Type} [Serialize B]
    (self : HttpApiClient) (ep : Endpoint R Q B) (req : Request Q)
    (h : self.make_request ep = some req) :
    req.timeout = self.http_client.timeout := by
  cases hb : ep.body with
  | none =>
    rw [make_request_eq_of_body_none self ep hb] at h
    injection h with h2
    rw [← h2]
  | some body =>
    cases hs : Serialize.to_string body with
    | ok s =>
      rw [make_request_eq_of_body_ok self ep body s hb hs] at h
      injection h with h2
      rw [← h2]
    | error e =>
      rw [make_request_eq_of_body_error self ep body e hb hs] at h
      simp at h

/-- Helper: the concrete request `exClient` builds for `epWithBody`. -/
theorem make_request_ex : exClient.make_request epWithBody = some exRequest := by
  rfl

/-- Claim C1: the claim states that building the wire request returns a
failure to the caller rather than aborting the process when body
serialization fails. The source (`framework/mod.rs` line 113) instead
unwraps `serde_json::to_string`: at a concrete client and an endpoint whose
body fails to serialize, `make_request` evaluates to `none`, the marker for
the unwrap aborting the process — construction does abort rather than
return a failure. -/
theorem make_request_aborts_on_serialization_error :
    exClient.make_request epBad = none := rfl

/-- Claim C2: for every completed response whose body the envelope
deserializer cannot parse, the Response Mapper returns the shape failure
carrying the status and the raw body — never a service-reported failure
and never a success value. -/
theorem map_api_response_shape_on_unparseable {R : Type}
    (parse : List Nat → Option (Envelope R)) (resp : HttpResponse)
    (h : parse resp.body = none) :
    map_api_response parse resp =
      Except.error (ApiFailure.Shape resp.status resp.body) ∧
    (∀ (status : Nat) (errs : List ApiError),
      map_api_response parse resp ≠
        Except.error (ApiFailure.Service status errs)) ∧
    (∀ v : ApiSuccess R, map_api_response parse resp ≠ Except.ok v) := by
  have hm : map_api_response parse resp =
      Except.error (ApiFailure.Shape resp.status resp.body) := by
    unfold map_api_response
    rw [h]
  refine ⟨hm, ?_, ?_⟩
  · intro status errs hc
    rw [hm] at hc
    simp at hc
  · intro v hc
    rw [hm] at hc
    simp at hc

/-- Witness for C2: a parser failing on the non-JSON body "not" under
HTTP 200 yields exactly the shape failure. -/
theorem map_api_response_shape_on_unparseable_witness :
    map_api_response parseNone nonJsonResp =
      Except.error (ApiFailure.Shape 200 [110, 111, 116]) :=
  (map_api_response_shape_on_unparseable parseNone nonJsonResp rfl).1

/-- Claim C3: resolving an `Environment` to a base address is total —
`Production` yields the one fixed well-known address and `Custom` returns
the caller-supplied address unchanged. -/
theorem environment_resolution_pure_total :
    (∀ e : Environment, (urlFromEnvironment e).isSome = true) ∧
    urlFromEnvironment Environment.Production =
      some ⟨"https", "api.cloudflare.com", "/client/v4/"⟩ ∧
    (∀ u : Url, urlFromEnvironment (Environment.Custom u) = some u) := by
  refine ⟨?_, rfl, fun u => rfl⟩
  intro e
  cases e with
  | Production => decide
  | Custom u => rfl

/-- Claim C4: the built request carries a content-type header exactly when
the endpoint's body is present; a present header equals the endpoint's
declared content type, and with no body the request has no body and no
headers at all. -/
theorem make_request_content_type_iff_body {R Q B : Type} [Serialize B]
    (self : HttpApiClient) (ep : Endpoint R Q B) (req : Request Q)
    (h : self.make_request ep = some req) :
    ((∃ v, (CONTENT_TYPE, v) ∈ req.headers) ↔ ep.body.isSome = true) ∧
    (∀ v, (CONTENT_TYPE, v) ∈ req.headers → v = ep.content_type) ∧
    (ep.body = none → req.body = none ∧ req.headers = []) := by
  cases hb : ep.body with
  | none =>
    rw [make_request_eq_of_body_none self ep hb] at h
    injection h with h2
    rw [← h2]
    simp [hb]
  | some body =>
    cases hs : Serialize.to_string body with
    | ok s =>
      rw [make_request_eq_of_body_ok self ep body s hb hs] at h
      injection h with h2
      rw [← h2]
      simp [hb]
    | error e =>
      rw [make_request_eq_of_body_error self ep body e hb hs] at h
      simp at h

/-- Witness for C4 at a concrete client and an endpoint with a body. -/
theorem make_request_content_type_iff_body_witness :
    ((∃ v, (CONTENT_TYPE, v) ∈ exRequest.headers) ↔
      epWithBody.body.isSome = true) ∧
    (∀ v, (CONTENT_TYPE, v) ∈ exRequest.headers →
      v = epWithBody.content_type) ∧
    (epWithBody.body = none → exRequest.body = none ∧ exRequest.headers = []) :=
  make_request_content_type_iff_body exClient epWithBody exRequest rfl

/-- Claim C5: when the transport builder rejects the configured timeout,
`HttpApiClient::new` returns that error at construction time, and a
successfully constructed client implies the transport was built with the
configured timeout. -/
theorem new_surfaces_build_failure_at_construction :
    (∀ (canBuild : Duration → Option String) (cred : Credentials)
        (cfg : HttpApiClientConfig) (env : Environment) (e : String),
      canBuild cfg.http_timeout = some e →
      HttpApiClient.new canBuild cred cfg env = Except.error e) ∧
    (∀ (canBuild : Duration → Option String) (cred : Credentials)
        (cfg : HttpApiClientConfig) (env : Environment)
        (client : HttpApiClient),
      HttpApiClient.new canBuild cred cfg env = Except.ok client →
      canBuild cfg.http_timeout = none ∧
      client = ⟨env, cred, ⟨cfg.http_timeout⟩⟩) := by
  constructor
  · intro canBuild cred cfg env e h
    unfold HttpApiClient.new buildClient
    rw [h]
    rfl
  · intro canBuild cred cfg env client h
    cases hc : canBuild cfg.http_timeout with
    | some e =>
      have h1 : HttpApiClient.new canBuild cred cfg env = Except.error e := by
        unfold HttpApiClient.new buildClient
        rw [hc]
        rfl
      rw [h1] at h
      simp at h
    | none =>
      exact ⟨rfl, new_ok_inv canBuild cred cfg env client h⟩

/-- Witness for C5: a rejecting builder fails `new` with its error; an
accepting builder yields exactly the expected client. -/
theorem new_surfaces_build_failure_at_construction_witness :
    HttpApiClient.new canBuildFail (Credentials.UserAuthToken "t")
      HttpApiClientConfig.default Environment.Production =
      Except.error "invalid timeout" ∧
    (canBuildOk HttpApiClientConfig.default.http_timeout = none ∧
      exClient = ⟨Environment.Production, Credentials.UserAuthToken "t",
        ⟨HttpApiClientConfig.default.http_timeout⟩⟩) :=
  ⟨new_surfaces_build_failure_at_construction.1 canBuildFail
      (Credentials.UserAuthToken "t") HttpApiClientConfig.default
      Environment.Production "invalid timeout" rfl,
    new_surfaces_build_failure_at_construction.2 canBuildOk
      (Credentials.UserAuthToken "t") HttpApiClientConfig.default
      Environment.Production exClient rfl⟩

/-- Claim C6: when the transport fails to obtain a response, `request`
returns the propagated transport failure; the outcome is independent of
the envelope deserializer (no body is interpreted) and is distinct from
every shape failure and every service failure. -/
theorem request_transport_failure_propagates {R Q B : Type} [Serialize B]
    (send : Request Q → Except String HttpResponse)
    (parse : List Nat → Option (Envelope R))
    (self : HttpApiClient) (ep : Endpoint R Q B) (req : Request Q)
    (e : String)
    (h : self.make_request ep = some req) (hs : send req = Except.error e) :
    self.request send parse ep =
      some (Except.error (ApiFailure.Transport e)) ∧
    (∀ parse2 : List Nat → Option (Envelope R),
      self.request send parse2 ep = self.request send parse ep) ∧
    (∀ (status : Nat) (body : List Nat),
      ApiFailure.Transport e ≠ ApiFailure.Shape status body) ∧
    (∀ (status : Nat) (errs : List ApiError),
      ApiFailure.Transport e ≠ ApiFailure.Service status errs) := by
  have key : ∀ p : List Nat → Option (Envelope R),
      self.request send p ep =
        some (Except.error (ApiFailure.Transport e)) := by
    intro p
    unfold HttpApiClient.request
    rw [h]
    simp [hs]
  refine ⟨key parse, fun parse2 => by rw [key parse2, key parse], ?_, ?_⟩
  · intro status body hc
    exact ApiFailure.noConfusion hc
  · intro status errs hc
    exact ApiFailure.noConfusion hc

/-- Witness for C6: a timing-out transport makes `request` return the
transport failure at a concrete client and endpoint. -/
theorem request_transport_failure_propagates_witness :
    exClient.request sendTimeout parseNone epWithBody =
      some (Except.error (ApiFailure.Transport "operation timed out")) :=
  (request_transport_failure_propagates sendTimeout parseNone exClient
    epWithBody exRequest "operation timed out" make_request_ex rfl).1

/-- Claim C7: `request_raw_bytes` is driven by the same `make_request`
result as `request` — the identical wire request — and on transport
success returns the entire response body verbatim, with no
interpretation. -/
theorem request_raw_bytes_verbatim {R Q B : Type} [Serialize B]
    (send : Request Q → Except String HttpResponse)
    (parse : List Nat → Option (Envelope R))
    (self : HttpApiClient) (ep : Endpoint R Q B) (req : Request Q)
    (h : self.make_request ep = some req) :
    (∀ resp : HttpResponse, send req = Except.ok resp →
      self.request_raw_bytes send ep = some (Except.ok resp.body) ∧
      self.request send parse ep = some (map_api_response parse resp)) ∧
    (∀ e : String, send req = Except.error e →
      self.request_raw_bytes send ep = some (Except.error e)) := by
  constructor
  · intro resp hr
    constructor
    · unfold HttpApiClient.request_raw_bytes
      rw [h]
      simp [hr]
    · unfold HttpApiClient.request
      rw [h]
      simp [hr]
  · intro e he
    unfold HttpApiClient.request_raw_bytes
    rw [h]
    simp [he]

/-- Witness for C7: a transport answering body bytes `[1, 2, 3]` makes
`request_raw_bytes` return exactly those bytes. -/
theorem request_raw_bytes_verbatim_witness :
    exClient.request_raw_bytes sendOkBytes epWithBody =
      some (Except.ok [1, 2, 3]) :=
  ((request_raw_bytes_verbatim sendOkBytes parseNone exClient epWithBody
      exRequest make_request_ex).1 ⟨200, [1, 2, 3]⟩ rfl).1

/-- Claim C8: a successfully constructed client stores exactly the
credentials and environment given at construction, and every request it
ever builds is authenticated with those same credentials. -/
theorem credentials_fixed_for_all_requests
    (canBuild : Duration → Option String) (cred : Credentials)
    (cfg : HttpApiClientConfig) (env : Environment)
    (client : HttpApiClient)
    (h : HttpApiClient.new canBuild cred cfg env = Except.ok client) :
    client.credentials = cred ∧ client.environment = env ∧
    (∀ {R Q B : Type} [Serialize B] (ep : Endpoint R Q B)
        (req : Request Q),
      client.make_request ep = some req → req.auth = some cred) := by
  have hc := new_ok_inv canBuild cred cfg env client h
  subst hc
  refine ⟨rfl, rfl, ?_⟩
  intro R Q B inst ep req hreq
  exact make_request_auth_eq _ ep req hreq

/-- Witness for C8 at a concrete construction and concrete request. -/
theorem credentials_fixed_for_all_requests_witness :
    exClient.credentials = Credentials.UserAuthToken "t" ∧
    exRequest.auth = some (Credentials.UserAuthToken "t") :=
  have h := credentials_fixed_for_all_requests canBuildOk
    (Credentials.UserAuthToken "t") HttpApiClientConfig.default
    Environment.Production exClient rfl
  ⟨h.1, h.2.2 epWithBody exRequest rfl⟩

/-- Claim C9: the default configuration's timeout is exactly 30 seconds,
and a client constructed with it carries that timeout on its transport and
on every request it builds. -/
theorem default_config_thirty_second_timeout
    (canBuild : Duration → Option String) (cred : Credentials)
    (env : Environment) (client : HttpApiClient)
    (h : HttpApiClient.new canBuild cred HttpApiClientConfig.default env =
      Except.ok client) :
    HttpApiClientConfig.default.http_timeout = Duration.from_secs 30 ∧
    client.http_client.timeout = Duration.from_secs 30 ∧
    (∀ {R Q B : Type} [Serialize B] (ep : Endpoint R Q B)
        (req : Request Q),
      client.make_request ep = some req →
      req.timeout = Duration.from_secs 30) := by
  have hc := new_ok_inv canBuild cred HttpApiClientConfig.default env client h
  subst hc
  refine ⟨rfl, rfl, ?_⟩
  intro R Q B inst ep req hreq
  exact make_request_timeout_eq _ ep req hreq

/-- Witness for C9 at a concrete construction and concrete request. -/
theorem default_config_thirty_second_timeout_witness :
    HttpApiClientConfig.default.http_timeout = Duration.from_secs 30 ∧
    exClient.http_client.timeout = Duration.from_secs 30 ∧
    exRequest.timeout = Duration.from_secs 30 :=
  have h := default_config_thirty_second_timeout canBuildOk
    (Credentials.UserAuthToken "t") Environment.Production exClient rfl
  ⟨h.1, h.2.1, h.2.2 epWithBody exRequest rfl⟩

/-- Claim C10: the constant string parsed for `Environment::Production`
is a well-formed URL — the parse succeeds with exactly the production base
address, so the unwrap at `framework/mod.rs` line 51 can never abort. -/
theorem production_url_parse_well_formed :
    urlParse productionUrlStr =
      some ⟨"https", "api.cloudflare.com", "/client/v4/"⟩ ∧
    (urlFromEnvironment Environment.Production).isSome = true :=
  ⟨rfl, by decide⟩

end Cloudflare
